import Mathlib

/-
  Shallow embedding of the bayesloop repository's core:
  - `changepointStudy.py` (class `ChangepointStudy`): hyperparameter raster
    construction, validity mask, sparse-to-dense reconstruction of the
    hyper-parameter distribution, and the configuration checks of `fit`.
  - `observationModel.py` (classes `Poisson`, `AR1`): likelihood arrays over a
    discretized parameter grid with the missing-data fallback.

  Grid/raster bookkeeping is embedded over `ℚ` (the Python code manipulates
  exact small integers there); the likelihood functions are embedded over `ℝ`
  since they involve `exp`, `log` and `π`.
-/

namespace Bayesloop

/-- One hyper-parameter raster axis, a list `[name, lower, upper, steps]` in the
Python source (e.g. `['tChange', 0, len(data)-1, len(data)]`). -/
structure RasterAxis where
  name : String
  lower : ℚ
  upper : ℚ
  steps : ℕ
deriving DecidableEq, Repr

/-- `np.linspace(lower, upper, steps)`: `steps` evenly spaced values from
`lower` to `upper` inclusive.  (For `steps = 1` numpy returns `[lower]`; the
rational division by `steps - 1 = 0` yields `0` here, giving the same value.) -/
def linspace (lower upper : ℚ) (steps : ℕ) : List ℚ :=
  (List.range steps).map
    (fun i : ℕ => lower + (upper - lower) * (i : ℚ) / ((steps : ℚ) - 1))

/-- The values of one raster axis, `np.linspace(lower, upper, steps)`
(`changepointStudy.py` lines 92 and 113). -/
def rasterAxisValues (a : RasterAxis) : List ℚ :=
  linspace a.lower a.upper a.steps

/-- Cartesian product of a list of value lists, first axis varying slowest
(row-major enumeration). -/
def cartesianProd : List (List ℚ) → List (List ℚ)
  | [] => [[]]
  | values :: rest =>
      List.flatten (values.map (fun v => (cartesianProd rest).map (fun t => v :: t)))

/-- Tuple enumeration produced by
`np.array([t.flatten() for t in np.meshgrid(*axes)]).T`
(`changepointStudy.py` lines 92-93 and 113-114).  `np.meshgrid` with default
xy-indexing yields output shape `(n2, n1, n3, ..., nD)`, so after C-order
flattening the second axis varies slowest, then the first, then the remaining
axes in order; each row still lists the axis values in original axis order. -/
def meshgridTuples : List (List ℚ) → List (List ℚ)
  | a :: b :: rest =>
      (cartesianProd (b :: a :: rest)).map (fun t =>
        match t with
        | vb :: va :: vr => va :: vb :: vr
        | t => t)
  | axes => cartesianProd axes

/-- `self.allRasterValues` as built from a raster specification
(`changepointStudy.py` lines 92-93 and 113-114). -/
def buildAllRasterValues (axes : List RasterAxis) : List (List ℚ) :=
  meshgridTuples (axes.map rasterAxisValues)

/-- The per-tuple validity test
`all(x[i] < x[i+1] for i in range(n-1))`
(`changepointStudy.py` lines 96-97 and 117-118), where `n` is the number of
leading ordered-discrete (change-point / break-point) axes. -/
def orderedMask (n : ℕ) (x : List ℚ) : Bool :=
  (List.range (n - 1)).all (fun i => decide (x.getD i 0 < x.getD (i + 1) 0))

/-- `self.mask` (`changepointStudy.py` lines 96-97 and 117-118). -/
def validityMask (n : ℕ) (axes : List RasterAxis) : List Bool :=
  (buildAllRasterValues axes).map (orderedMask n)

/-- Boolean-mask indexing `xs[mask]` of numpy, for equal-length `mask`, `xs`. -/
def boolIndex {α : Type} (mask : List Bool) (xs : List α) : List α :=
  ((mask.zip xs).filter (fun p => p.1)).map (fun p => p.2)

/-- `self.rasterValues = self.allRasterValues[self.mask]`
(`changepointStudy.py` lines 98 and 119). -/
def validRasterValues (n : ℕ) (axes : List RasterAxis) : List (List ℚ) :=
  boolIndex (validityMask n axes) (buildAllRasterValues axes)

/-- The change-point raster axis `['tChange', 0, T-1, T]` for `T` formatted
data segments (`changepointStudy.py` line 91). -/
def tChangeAxis (T : ℕ) : RasterAxis :=
  ⟨"tChange", 0, (T : ℚ) - 1, T⟩

/-- The break-point raster axis `['tBreak', 0, T-1, T]` for `T` formatted data
segments (`changepointStudy.py` line 112). -/
def tBreakAxis (T : ℕ) : RasterAxis :=
  ⟨"tBreak", 0, (T : ℚ) - 1, T⟩

/-- `self.raster` as set for `n` change-points and caller-supplied extra axes
(`changepointStudy.py` line 91). -/
def changepointRaster (n T : ℕ) (raster : List RasterAxis) : List RasterAxis :=
  List.replicate n (tChangeAxis T) ++ raster

/-- `self.raster` as set for `n` break-points (`changepointStudy.py` line 112). -/
def breakpointRaster (n T : ℕ) (raster : List RasterAxis) : List RasterAxis :=
  List.replicate n (tBreakAxis T) ++ raster

/-- `self.rasterConstant = [1]*n + [np.abs(upper-lower)/(float(steps)-1) ...]`
(`changepointStudy.py` lines 101-102 and 122-123). -/
def rasterConstantList (n : ℕ) (raster : List RasterAxis) : List ℚ :=
  List.replicate n 1 ++ raster.map (fun a => |a.upper - a.lower| / ((a.steps : ℚ) - 1))

/-- Sparse-to-dense reconstruction
`temp = np.zeros(len(self.allRasterValues)); temp[self.mask] = dist`
(`changepointStudy.py` lines 138-139): scatter `dist` into a zero list at the
positions where `mask` is true. -/
def expandToMask : List Bool → List ℚ → List ℚ
  | [], _ => []
  | true :: ms, v :: vs => v :: expandToMask ms vs
  | true :: ms, [] => 0 :: expandToMask ms []
  | false :: ms, vs => 0 :: expandToMask ms vs

/-! Configuration checks performed by `ChangepointStudy.fit`
(`changepointStudy.py` lines 58-81) before any sequential-inference call. -/

/-- The counts that drive the configuration checks of `fit`:
`nChangepoint = hyperParameterNames.count('tChange')`,
`tBreakCount = hyperParameterNames.count('tBreak')`, and
`nBreakpointInGroup = len(self.unpackSelectedHyperParameters())` for the single
serial transition model when `tBreakCount == 1`. -/
structure TransitionConfig where
  nChangepoint : ℕ
  tBreakCount : ℕ
  nBreakpointInGroup : ℕ
deriving DecidableEq, Repr

/-- Outcome of the configuration-check phase of `fit`: either a warning is
printed and the method returns `None` without running any inference, or an
exception propagates to the caller, or control reaches the
`RasterStudy.fit` call. -/
inductive FitOutcome where
  | warnedReturn (msg : String)
  | raisedError (errName : String)
  | proceeded
deriving DecidableEq, Repr

/-- True iff the outcome is a propagating exception. -/
def FitOutcome.isRaised : FitOutcome → Bool
  | .raisedError _ => true
  | _ => false

/-- True iff the outcome is a printed warning followed by a normal return. -/
def FitOutcome.isWarnedReturn : FitOutcome → Bool
  | .warnedReturn _ => true
  | _ => false

/-- Warning printed at `changepointStudy.py` line 65. -/
def msgMultipleSerial : String :=
  "! Multiple instances of SerialTransition models are currently not supported by ChangepointStudy."

/-- Warning printed at `changepointStudy.py` line 73. -/
def msgNoPoints : String :=
  "! No change-points or break-points detected in transition model. Check transition model."

/-- Warning printed at `changepointStudy.py` lines 78-80. -/
def msgBothKinds : String :=
  "! Detected both change-points (Changepoint transition model) and break-points (SerialTransitionModel). Currently, only one type is supported in a single transition model."

/-- The number of break-points the code ends up with: `nBreakpoint` is only
assigned from the serial model when exactly one `tBreak` name is present
(`changepointStudy.py` lines 63-70). -/
def effectiveBreakpoints (c : TransitionConfig) : ℕ :=
  if c.tBreakCount = 1 then c.nBreakpointInGroup else 0

/-- The configuration-check phase of `ChangepointStudy.fit`
(`changepointStudy.py` lines 62-81), in source order: more than one serial
model, then neither kind of structural point, then both kinds at once; each
prints a warning and returns, otherwise control proceeds to the raster build
and the `RasterStudy.fit` call. -/
def fitConfigCheck (c : TransitionConfig) : FitOutcome :=
  if 1 < c.tBreakCount then
    .warnedReturn msgMultipleSerial
  else if c.nChangepoint = 0 ∧ effectiveBreakpoints c = 0 then
    .warnedReturn msgNoPoints
  else if 0 < c.nChangepoint ∧ 0 < effectiveBreakpoints c then
    .warnedReturn msgBothKinds
  else
    .proceeded

/-! State mutated by the break-point branch of `ChangepointStudy.fit`
(`changepointStudy.py` lines 105-140). -/

/-- The attributes of the study object touched by `fit`. -/
structure StudyState where
  raster : List RasterAxis
  allRasterValues : List (List ℚ)
  mask : List Bool
  rasterValues : List (List ℚ)
  rasterConstant : List ℚ
  hyperParameterDistribution : List ℚ
deriving Repr

/-- State after `changepointStudy.py` lines 112-123: break-point raster,
all value tuples, validity mask, valid tuples and raster constants are set. -/
def breakpointPreState (n T : ℕ) (raster : List RasterAxis) (s : StudyState) : StudyState :=
  let r1 := breakpointRaster n T raster
  let allVals := buildAllRasterValues r1
  let mask := allVals.map (orderedMask n)
  { s with raster := r1,
           allRasterValues := allVals,
           mask := mask,
           rasterValues := boolIndex mask allVals,
           rasterConstant := rasterConstantList n raster }

/-- State after `changepointStudy.py` line 126: `self.raster` is collapsed so
that `'tBreak'` occurs only once before `RasterStudy.fit` is invoked. -/
def breakpointCollapsedState (n T : ℕ) (raster : List RasterAxis) (s : StudyState) : StudyState :=
  { breakpointPreState n T raster s with raster := [tBreakAxis T] ++ raster }

/-- Modelled from the spec: `RasterStudy.fit` lives in `rasterStudy.py`, which
is not part of the sources at hand.  Per the spec its runner consumes the
raster specification read-only, iterates the valid tuples, and stores the
normalized evidence weights as the hyper-parameter distribution over valid
tuples; it does not modify the raster specification itself.  The distribution
it would compute is abstracted as the argument `dist`. -/
def RasterStudyFit (s : StudyState) (dist : List ℚ) : StudyState :=
  { s with hyperParameterDistribution := dist }

/-- The break-point branch of `ChangepointStudy.fit`
(`changepointStudy.py` lines 105-140): build the raster and mask, collapse the
raster to a single `'tBreak'` axis, run `RasterStudy.fit`, restore the raster
(lines 133-134), and expand the distribution to the full raster
(lines 136-140). -/
def breakpointFit (n T : ℕ) (raster : List RasterAxis) (s : StudyState) (dist : List ℚ) :
    StudyState :=
  let fitted := RasterStudyFit (breakpointCollapsedState n T raster s) dist
  let restored := { fitted with raster := breakpointRaster n T raster }
  { restored with
      hyperParameterDistribution := expandToMask restored.mask restored.hyperParameterDistribution }

/-! Observation models (`observationModel.py`).  The missing-data sentinel
`NaN` is embedded as `Option.none`; a present measurement as `some`. -/

/-- The `Poisson` observation model object (`observationModel.py` lines 11-21). -/
structure Poisson where
  segmentLength : ℕ
  defaultGridSize : List ℕ
  defaultBoundaries : List (ℚ × ℚ)
  uninformativePdf : Option (List ℝ)

/-- `Poisson.__init__` (`observationModel.py` lines 17-21). -/
def Poisson.make : Poisson :=
  ⟨1, [1000], [(0, 1)], none⟩

/-- `Poisson.pdf(grid, x)` (`observationModel.py` lines 26-45): for missing
data return the configured uninformative likelihood if set, else the uniform
likelihood `np.ones_like(grid[0]) / np.sum(np.ones_like(grid[0]))`; otherwise
`(grid[0]**x[0]) * np.exp(-grid[0]) / factorial(x[0])`.  The segment holds a
single value `x[0]`, here `x`. -/
noncomputable def Poisson.pdf (m : Poisson) (grid : List ℝ) (x : Option ℕ) : List ℝ :=
  match x with
  | none =>
      match m.uninformativePdf with
      | some u => u
      | none => grid.map (fun _ => 1 / (grid.length : ℝ))
  | some k =>
      grid.map (fun lam => lam ^ k * Real.exp (-lam) / (Nat.factorial k : ℝ))

/-- The `AR1` observation model object (`observationModel.py` lines 47-58). -/
structure AR1 where
  segmentLength : ℕ
  defaultGridSize : List ℕ
  defaultBoundaries : List (ℚ × ℚ)
  uninformativePdf : Option (List ℝ)

/-- `AR1.__init__` (`observationModel.py` lines 54-58). -/
def AR1.make : AR1 :=
  ⟨2, [200, 200], [(-1, 1), (0, 1)], none⟩

/-- `AR1.pdf(grid, x)` (`observationModel.py` lines 63-82): for missing data
the same fallback as `Poisson.pdf`; otherwise
`np.exp(-((x[1] - grid[0]*x[0])**2.)/(2.*grid[1]**2.) - np.log(2.*np.pi*grid[1]**2.))`.
The two-dimensional grid is embedded as a flat list of pairs
`(r, s) = (grid[0], grid[1])` of correlation coefficient and noise amplitude;
the segment is the pair `(x0, x1) = (x[0], x[1])`. -/
noncomputable def AR1.pdf (m : AR1) (grid : List (ℝ × ℝ)) (x0 x1 : Option ℝ) : List ℝ :=
  match x0, x1 with
  | some a, some b =>
      grid.map (fun p =>
        Real.exp ((-((b - p.1 * a) ^ 2)) / (2 * p.2 ^ 2) - Real.log (2 * Real.pi * p.2 ^ 2)))
  | _, _ =>
      match m.uninformativePdf with
      | some u => u
      | none => grid.map (fun _ => 1 / (grid.length : ℝ))

/-! Helper lemmas. -/

/-- The per-tuple mask test is exactly the indexed strict-increase condition on
the first `n` values. -/
theorem orderedMask_iff_forall (n : ℕ) (x : List ℚ) :
    orderedMask n x = true ↔ ∀ i, i + 1 < n → x.getD i 0 < x.getD (i + 1) 0 := by
  simp only [orderedMask, List.all_eq_true, List.mem_range, decide_eq_true_eq]
  constructor
  · intro h i hi
    exact h i (by omega)
  · intro h i hi
    exact h i (by omega)

/-- On a tuple with at least `n` entries, the mask test says that the first `n`
entries form a strictly increasing chain. -/
theorem orderedMask_iff_chain (n : ℕ) (x : List ℚ) (h : n ≤ x.length) :
    orderedMask n x = true ↔ List.Chain' (· < ·) (x.take n) := by
  rw [orderedMask_iff_forall, List.chain'_iff_get]
  have hlen : (x.take n).length = n := by
    simp only [List.length_take]
    omega
  constructor
  · intro hall i hi
    rw [hlen] at hi
    simp only [List.get_eq_getElem, List.getElem_take]
    have h1 : i < x.length := by omega
    have h2 : i + 1 < x.length := by omega
    have hx := hall i (by omega)
    rwa [List.getD_eq_getElem _ _ h1, List.getD_eq_getElem _ _ h2] at hx
  · intro hc i hi
    have h1 : i < x.length := by omega
    have h2 : i + 1 < x.length := by omega
    rw [List.getD_eq_getElem _ _ h1, List.getD_eq_getElem _ _ h2]
    have hx := hc i (by rw [hlen]; omega)
    simpa using hx

/-- The mask test only reads the first `n` entries of a tuple. -/
theorem orderedMask_append (n : ℕ) (pre c : List ℚ) (h : n ≤ pre.length) :
    orderedMask n (pre ++ c) = orderedMask n pre := by
  have key : ∀ i, i < n → (pre ++ c).getD i 0 = pre.getD i 0 := by
    intro i hi
    exact List.getD_append _ _ _ _ (by omega)
  rw [Bool.eq_iff_iff, orderedMask_iff_forall, orderedMask_iff_forall]
  constructor
  · intro hall i hi
    rw [← key i (by omega), ← key (i + 1) (by omega)]
    exact hall i hi
  · intro hall i hi
    rw [key i (by omega), key (i + 1) (by omega)]
    exact hall i hi

/-- The change-point axis values for `T = 4`: `np.linspace(0, 3, 4)`. -/
theorem tChange4_values : rasterAxisValues (tChangeAxis 4) = [0, 1, 2, 3] := by
  simp [rasterAxisValues, tChangeAxis, linspace, List.range_succ]
  norm_num

/-- All sixteen raster tuples for two change-point axes and `T = 4`, in the
flattened meshgrid order of the source. -/
theorem allVals4 : buildAllRasterValues (changepointRaster 2 4 []) =
    [[0, 0], [1, 0], [2, 0], [3, 0], [0, 1], [1, 1], [2, 1], [3, 1],
     [0, 2], [1, 2], [2, 2], [3, 2], [0, 3], [1, 3], [2, 3], [3, 3]] := by
  simp [buildAllRasterValues, changepointRaster, List.replicate, tChange4_values,
        meshgridTuples, cartesianProd]

/-- The surviving tuples for two change-point axes and `T = 4`, in raster
order. -/
theorem valid4 : validRasterValues 2 (changepointRaster 2 4 []) =
    [[0, 1], [0, 2], [1, 2], [0, 3], [1, 3], [2, 3]] := by
  simp [validRasterValues, validityMask, allVals4, boolIndex, orderedMask, List.range_succ]
  norm_num

/-- The scatter step produces a list of the full raster length. -/
theorem expandToMask_length (mask : List Bool) (dist : List ℚ) :
    (expandToMask mask dist).length = mask.length := by
  induction mask generalizing dist with
  | nil => rfl
  | cons m ms ih =>
    cases m <;> cases dist <;> simp [expandToMask, ih]

/-- Gathering the scattered values at the true mask positions returns the
original values in order. -/
theorem boolIndex_expandToMask (mask : List Bool) (dist : List ℚ)
    (h : mask.count true = dist.length) :
    boolIndex mask (expandToMask mask dist) = dist := by
  induction mask generalizing dist with
  | nil =>
    cases dist with
    | nil => rfl
    | cons v vs => simp at h
  | cons m ms ih =>
    cases m with
    | true =>
      cases dist with
      | nil =>
        simp [List.count_cons] at h
      | cons v vs =>
        have h' : ms.count true = vs.length := by
          simp [List.count_cons] at h
          omega
        have hstep : boolIndex (true :: ms) (expandToMask (true :: ms) (v :: vs))
            = v :: boolIndex ms (expandToMask ms vs) := rfl
        rw [hstep, ih vs h']
    | false =>
      have h' : ms.count true = dist.length := by
        simp [List.count_cons] at h
        omega
      have hstep : boolIndex (false :: ms) (expandToMask (false :: ms) dist)
          = boolIndex ms (expandToMask ms dist) := by
        cases dist <;> rfl
      rw [hstep, ih dist h']

/-- The scattered list is zero wherever the mask is false. -/
theorem expandToMask_getD_zero (mask : List Bool) (dist : List ℚ) (i : ℕ)
    (h : mask.getD i false = false) :
    (expandToMask mask dist).getD i 0 = 0 := by
  induction mask generalizing dist i with
  | nil => simp [expandToMask]
  | cons m ms ih =>
    cases m with
    | true =>
      cases i with
      | zero => simp at h
      | succ j =>
        cases dist with
        | nil => simpa [expandToMask] using ih [] j (by simpa using h)
        | cons v vs => simpa [expandToMask] using ih vs j (by simpa using h)
    | false =>
      cases i with
      | zero => simp [expandToMask]
      | succ j => simpa [expandToMask] using ih dist j (by simpa using h)

/-! Claim theorems. -/

/-- Claim C1: a raster tuple of the change-point (or break-point) build with
`n` ordered-discrete axes is accepted by the validity mask iff its `n`
ordered-discrete values (the first `n` entries) are strictly increasing; the
appended continuous-axis values never affect validity; for `n = 2`, `T = 4`
the valid change-point pairs are exactly
`(0,1), (0,2), (0,3), (1,2), (1,3), (2,3)`, while `(1,1)` and `(2,1)` are
masked out. -/
theorem validity_mask_strict_increase :
    (∀ (n : ℕ) (x : List ℚ), n ≤ x.length →
        (orderedMask n x = true ↔ List.Chain' (· < ·) (x.take n)))
  ∧ (∀ (n : ℕ) (x : List ℚ),
        orderedMask n x = true ↔ ∀ i, i + 1 < n → x.getD i 0 < x.getD (i + 1) 0)
  ∧ (∀ (n : ℕ) (pre c c' : List ℚ), pre.length = n →
        orderedMask n (pre ++ c) = orderedMask n (pre ++ c'))
  ∧ (validRasterValues 2 (changepointRaster 2 4 [])).Perm
      [[0, 1], [0, 2], [0, 3], [1, 2], [1, 3], [2, 3]]
  ∧ orderedMask 2 [1, 1] = false ∧ orderedMask 2 [2, 1] = false := by
  refine ⟨orderedMask_iff_chain, orderedMask_iff_forall, ?_, ?_, by decide, by decide⟩
  · intro n pre c c' h
    rw [orderedMask_append n pre c (le_of_eq h.symm),
        orderedMask_append n pre c' (le_of_eq h.symm)]
  · rw [valid4]
    decide

/-- Witness for C1 at the concrete tuple `[0, 2, 9]` with `n = 2`. -/
theorem validity_mask_strict_increase_witness :
    2 ≤ ([0, 2, 9] : List ℚ).length ∧
      (orderedMask 2 [0, 2, 9] = true ↔
        List.Chain' (· < ·) (([0, 2, 9] : List ℚ).take 2)) :=
  ⟨by decide, validity_mask_strict_increase.1 2 [0, 2, 9] (by decide)⟩

/-- Claim C2: for a distribution over the valid tuples and a boolean mask with
as many true entries as the distribution has elements, the dense
reconstruction has the mask's length, reads back to the original values at the
true positions in order, and is exactly zero at every false position. -/
theorem dense_reconstruction_roundtrip (mask : List Bool) (dist : List ℚ)
    (h : mask.count true = dist.length) :
    (expandToMask mask dist).length = mask.length
  ∧ boolIndex mask (expandToMask mask dist) = dist
  ∧ ∀ i, mask.getD i false = false → (expandToMask mask dist).getD i 0 = 0 :=
  ⟨expandToMask_length mask dist, boolIndex_expandToMask mask dist h,
   fun i hi => expandToMask_getD_zero mask dist i hi⟩

/-- Witness for C2 with mask `[true, false, true]` and values `[3, 5]`. -/
theorem dense_reconstruction_roundtrip_witness :
    ([true, false, true].count true = ([3, 5] : List ℚ).length)
  ∧ ((expandToMask [true, false, true] [3, 5]).length = [true, false, true].length
     ∧ boolIndex [true, false, true] (expandToMask [true, false, true] [3, 5]) = [3, 5]
     ∧ ∀ i, [true, false, true].getD i false = false →
         (expandToMask [true, false, true] ([3, 5] : List ℚ)).getD i 0 = 0) :=
  ⟨by decide, dense_reconstruction_roundtrip [true, false, true] [3, 5] (by decide)⟩

/-- The ordered-discrete axis `['tChange'/'tBreak', 0, T-1, T]` enumerates the
integer time-step indices `0, 1, ..., T-1`. -/
theorem linspace_ordered_axis (T : ℕ) :
    linspace 0 ((T : ℚ) - 1) T = (List.range T).map (fun i : ℕ => (i : ℚ)) := by
  unfold linspace
  apply List.map_congr_left
  intro i hi
  rw [List.mem_range] at hi
  rcases Nat.lt_or_ge T 2 with hT | hT
  · have hi0 : i = 0 := by omega
    have hT1 : T = 1 := by omega
    subst hi0 hT1
    norm_num
  · have hc : ((T : ℚ) - 1) ≠ 0 := by
      have h2 : (2 : ℚ) ≤ (T : ℚ) := by exact_mod_cast hT
      intro hzero
      linarith
    field_simp

/-- Claim C8: for `n` detected change-points, `fit` builds the raster as `n`
copies of the ordered-discrete `tChange` axis spanning `[0, T-1]` with `T`
steps, prepended to the caller-supplied continuous axes, and sets the raster
constant to `1` per ordered-discrete axis and `(upper-lower)/(stepCount-1)`
per continuous axis. -/
theorem changepoint_raster_build (n T : ℕ) (raster : List RasterAxis)
    (hb : ∀ a ∈ raster, a.lower ≤ a.upper) :
    changepointRaster n T raster
      = List.replicate n ⟨"tChange", 0, (T : ℚ) - 1, T⟩ ++ raster
  ∧ rasterAxisValues (tChangeAxis T) = (List.range T).map (fun i : ℕ => (i : ℚ))
  ∧ rasterConstantList n raster
      = List.replicate n 1
        ++ raster.map (fun a => (a.upper - a.lower) / ((a.steps : ℚ) - 1)) := by
  refine ⟨rfl, ?_, ?_⟩
  · simpa [rasterAxisValues, tChangeAxis] using linspace_ordered_axis T
  · unfold rasterConstantList
    congr 1
    refine List.map_congr_left (fun a ha => ?_)
    rw [abs_of_nonneg (sub_nonneg.mpr (hb a ha))]

/-- Witness for C8: one change-point, three data segments, one continuous
axis `['sigma', 0, 1, 20]`. -/
theorem changepoint_raster_build_witness :
    (∀ a ∈ [(⟨"sigma", 0, 1, 20⟩ : RasterAxis)], a.lower ≤ a.upper)
  ∧ (changepointRaster 1 3 [⟨"sigma", 0, 1, 20⟩]
      = List.replicate 1 ⟨"tChange", 0, (3 : ℚ) - 1, 3⟩ ++ [⟨"sigma", 0, 1, 20⟩]
     ∧ rasterAxisValues (tChangeAxis 3) = (List.range 3).map (fun i : ℕ => (i : ℚ))
     ∧ rasterConstantList 1 [⟨"sigma", 0, 1, 20⟩]
        = List.replicate 1 1
          ++ [(⟨"sigma", 0, 1, 20⟩ : RasterAxis)].map
              (fun a => (a.upper - a.lower) / ((a.steps : ℚ) - 1))) :=
  ⟨by decide, changepoint_raster_build 1 3 [⟨"sigma", 0, 1, 20⟩] (by decide)⟩

/-- Claim C7 counterexample: with two serial transition models declared
(`tBreakCount = 2`), `fit` prints the multiple-serial warning and returns
normally; no exception is raised. -/
theorem config_error_cex :
    fitConfigCheck ⟨0, 2, 0⟩ = FitOutcome.warnedReturn msgMultipleSerial
  ∧ (fitConfigCheck ⟨0, 2, 0⟩).isRaised = false :=
  ⟨rfl, rfl⟩

/-- Claim C7 as amended: when both structural-change kinds are declared, or
more than one serial (break-point) model, or neither kind, `fit` detects the
condition before any sequential-inference call, prints a distinct warning for
each of the three conditions, and returns normally; it neither raises an
error nor proceeds to `RasterStudy.fit`. -/
theorem config_rejection_warns (c : TransitionConfig)
    (h : 1 < c.tBreakCount ∨ (c.nChangepoint = 0 ∧ effectiveBreakpoints c = 0)
         ∨ (0 < c.nChangepoint ∧ 0 < effectiveBreakpoints c)) :
    (fitConfigCheck c).isWarnedReturn = true
  ∧ (fitConfigCheck c).isRaised = false
  ∧ fitConfigCheck c ≠ FitOutcome.proceeded
  ∧ (1 < c.tBreakCount → fitConfigCheck c = FitOutcome.warnedReturn msgMultipleSerial)
  ∧ (c.tBreakCount ≤ 1 → c.nChangepoint = 0 → effectiveBreakpoints c = 0 →
        fitConfigCheck c = FitOutcome.warnedReturn msgNoPoints)
  ∧ (0 < c.nChangepoint → 0 < effectiveBreakpoints c →
        fitConfigCheck c = FitOutcome.warnedReturn msgBothKinds)
  ∧ msgMultipleSerial ≠ msgNoPoints
  ∧ msgMultipleSerial ≠ msgBothKinds
  ∧ msgNoPoints ≠ msgBothKinds := by
  have heff : effectiveBreakpoints c = 0 ∨ c.tBreakCount = 1 := by
    unfold effectiveBreakpoints
    split
    · right; assumption
    · left; rfl
  unfold fitConfigCheck
  split_ifs with h1 h2 h3
  · exact ⟨rfl, rfl, by simp, fun _ => rfl,
      fun hle _ _ => absurd h1 (by omega),
      fun hc hb => by
        have : c.tBreakCount = 1 := by
          rcases heff with he | he
          · omega
          · exact he
        omega,
      by decide, by decide, by decide⟩
  · exact ⟨rfl, rfl, by simp, fun hgt => absurd hgt h1,
      fun _ _ _ => rfl,
      fun hc hb => by omega,
      by decide, by decide, by decide⟩
  · exact ⟨rfl, rfl, by simp, fun hgt => absurd hgt h1,
      fun _ hc he => absurd (And.intro hc he) h2,
      fun _ _ => rfl,
      by decide, by decide, by decide⟩
  · exfalso
    rcases h with hg | hg | hg
    · exact h1 hg
    · exact h2 hg
    · exact h3 hg

/-- Witness for C7 at the concrete configuration with two serial models. -/
theorem config_rejection_warns_witness :
    (1 < (2 : ℕ) ∨ ((0 : ℕ) = 0 ∧ effectiveBreakpoints ⟨0, 2, 0⟩ = 0)
       ∨ (0 < (0 : ℕ) ∧ 0 < effectiveBreakpoints ⟨0, 2, 0⟩))
  ∧ ((fitConfigCheck ⟨0, 2, 0⟩).isWarnedReturn = true
     ∧ (fitConfigCheck ⟨0, 2, 0⟩).isRaised = false
     ∧ fitConfigCheck ⟨0, 2, 0⟩ ≠ FitOutcome.proceeded
     ∧ (1 < (2 : ℕ) →
          fitConfigCheck ⟨0, 2, 0⟩ = FitOutcome.warnedReturn msgMultipleSerial)
     ∧ ((2 : ℕ) ≤ 1 → (0 : ℕ) = 0 → effectiveBreakpoints ⟨0, 2, 0⟩ = 0 →
          fitConfigCheck ⟨0, 2, 0⟩ = FitOutcome.warnedReturn msgNoPoints)
     ∧ (0 < (0 : ℕ) → 0 < effectiveBreakpoints ⟨0, 2, 0⟩ →
          fitConfigCheck ⟨0, 2, 0⟩ = FitOutcome.warnedReturn msgBothKinds)
     ∧ msgMultipleSerial ≠ msgNoPoints
     ∧ msgMultipleSerial ≠ msgBothKinds
     ∧ msgNoPoints ≠ msgBothKinds) :=
  ⟨Or.inl (by decide), config_rejection_warns ⟨0, 2, 0⟩ (Or.inl (by decide))⟩

/-- Claim C10: after the break-point branch of `fit` runs to completion with
`n > 0` break-points, the stored raster specification equals `n` copies of the
`['tBreak', 0, T-1, T]` axis followed by the caller-supplied continuous axes;
in particular the temporary single-`tBreak` collapsed raster handed to
`RasterStudy.fit` is restored before `fit` returns. -/
theorem breakpoint_raster_restored (n T : ℕ) (raster : List RasterAxis)
    (s : StudyState) (dist : List ℚ) (hn : 0 < n) :
    (breakpointCollapsedState n T raster s).raster = [tBreakAxis T] ++ raster
  ∧ (breakpointFit n T raster s dist).raster
      = List.replicate n (tBreakAxis T) ++ raster :=
  ⟨rfl, rfl⟩

/-- Witness for C10 with two break-points, three segments, no extra axes. -/
theorem breakpoint_raster_restored_witness :
    0 < 2
  ∧ ((breakpointCollapsedState 2 3 [] ⟨[], [], [], [], [], []⟩).raster
        = [tBreakAxis 3] ++ []
     ∧ (breakpointFit 2 3 [] ⟨[], [], [], [], [], []⟩ []).raster
        = List.replicate 2 (tBreakAxis 3) ++ []) :=
  ⟨by decide, breakpoint_raster_restored 2 3 [] ⟨[], [], [], [], [], []⟩ [] (by decide)⟩

/-- The uniform fallback likelihood sums to one on a non-empty grid. -/
theorem uniformSum {α : Type} (l : List α) (h : l ≠ []) :
    (l.map (fun _ => 1 / (l.length : ℝ))).sum = 1 := by
  rw [List.map_const', List.sum_replicate, nsmul_eq_mul]
  have h0 : (l.length : ℝ) ≠ 0 := by
    have := List.length_pos.mpr h
    positivity
  field_simp

/-- Claim C3: on any grid of non-negative rates and a segment holding a single
non-missing non-negative integer count `k`, `Poisson.pdf` returns, at each
grid point `lam`, exactly `lam ^ k * exp (-lam) / k!`. -/
theorem poisson_pdf_closed_form (m : Poisson) (grid : List ℝ) (k : ℕ)
    (hg : ∀ lam ∈ grid, 0 ≤ lam) :
    (Poisson.pdf m grid (some k)).length = grid.length
  ∧ ∀ i, i < grid.length →
      (Poisson.pdf m grid (some k)).getD i 0
        = (grid.getD i 0) ^ k * Real.exp (-(grid.getD i 0)) / (Nat.factorial k : ℝ) := by
  constructor
  · simp [Poisson.pdf]
  · intro i hi
    have hlen : i < (Poisson.pdf m grid (some k)).length := by
      simpa [Poisson.pdf] using hi
    rw [List.getD_eq_getElem _ _ hlen, List.getD_eq_getElem _ _ hi]
    simp [Poisson.pdf]

/-- Witness for C3 on the grid `[2]` with count `k = 1`. -/
theorem poisson_pdf_closed_form_witness :
    (∀ lam ∈ ([2] : List ℝ), 0 ≤ lam)
  ∧ ((Poisson.pdf Poisson.make [2] (some 1)).length = ([2] : List ℝ).length
     ∧ ∀ i, i < ([2] : List ℝ).length →
         (Poisson.pdf Poisson.make [2] (some 1)).getD i 0
           = (([2] : List ℝ).getD i 0) ^ 1 * Real.exp (-(([2] : List ℝ).getD i 0))
             / (Nat.factorial 1 : ℝ)) :=
  ⟨by norm_num, poisson_pdf_closed_form Poisson.make [2] 1 (by norm_num)⟩

/-- Claim C4 counterexample: on the grid `[0, 1, 2, 3]` with observed count
`x = 2`, `Poisson.pdf` does not return `[0, e^-1, 4e^-2/2, 9e^-3/6]`: at grid
value `1` the code yields `e^-1 / 2!`, not `e^-1`. -/
theorem poisson_grid_example_cex :
    Poisson.pdf Poisson.make [0, 1, 2, 3] (some 2)
      ≠ [0, Real.exp (-1), 4 * Real.exp (-2) / 2, 9 * Real.exp (-3) / 6] := by
  intro h
  have h1 : ((Poisson.pdf Poisson.make [0, 1, 2, 3] (some 2)).getD 1 0) = Real.exp (-1) := by
    rw [h]
    norm_num
  have h2 : ((Poisson.pdf Poisson.make [0, 1, 2, 3] (some 2)).getD 1 0)
      = Real.exp (-1) / 2 := by
    simp [Poisson.pdf, Nat.factorial]
  rw [h1] at h2
  have hpos := Real.exp_pos (-1)
  nlinarith

/-- Claim C4 as amended: on the grid `[0, 1, 2, 3]` with observed count
`x = 2`, `Poisson.pdf` returns the unnormalized values
`[0, e^-1/2, 4e^-2/2, 9e^-3/2]` (denominator `x! = 2` throughout). -/
theorem poisson_grid_example :
    Poisson.pdf Poisson.make [0, 1, 2, 3] (some 2)
      = [0, Real.exp (-1) / 2, 4 * Real.exp (-2) / 2, 9 * Real.exp (-3) / 2] := by
  simp [Poisson.pdf, Nat.factorial]
  norm_num

/-- Claim C5 evidence: at the grid point `(r, s) = (0, 1)` on the segment
`(x0, x1) = (0, 0)`, `AR1.pdf` returns `1 / (2π)` — the code divides by
`2πs²` via `exp(... - log(2πs²))` — whereas the claimed normalized density
value is `1 / sqrt(2πs²) = 1 / sqrt(2π)`, and the two differ. -/
theorem ar1_pdf_normalization_bug :
    AR1.pdf AR1.make [(0, 1)] (some 0) (some 0) = [1 / (2 * Real.pi)]
  ∧ 1 / (2 * Real.pi) ≠ 1 / Real.sqrt (2 * Real.pi) := by
  have h2pi : (0 : ℝ) < 2 * Real.pi := by positivity
  constructor
  · simp only [AR1.pdf, AR1.make, List.map_cons, List.map_nil]
    congr 1
    have harg : (-((0 - (0 : ℝ) * 0) ^ 2)) / (2 * (1 : ℝ) ^ 2)
        - Real.log (2 * Real.pi * (1 : ℝ) ^ 2) = -Real.log (2 * Real.pi) := by
      norm_num
    rw [harg, Real.exp_neg, Real.exp_log h2pi, one_div]
  · intro h
    rw [one_div, one_div] at h
    have heq : Real.sqrt (2 * Real.pi) = 2 * Real.pi := (inv_inj.mp h).symm
    have hsq := Real.sq_sqrt h2pi.le
    rw [heq] at hsq
    nlinarith [Real.pi_gt_three, Real.pi_pos]

/-- Claim C6: on a segment with a missing required value, both `Poisson.pdf`
and `AR1.pdf` return the configured uninformative likelihood when one is set,
and otherwise the discrete-uniform array with every entry `1/|grid|`, all
entries equal and summing to one on a non-empty grid. -/
theorem missing_data_policy (mP mP0 : Poisson) (mA mA0 : AR1)
    (grid : List ℝ) (gridA : List (ℝ × ℝ)) (u v : List ℝ) (x1 : Option ℝ) (a : ℝ)
    (hset : mP.uninformativePdf = some u) (hunset : mP0.uninformativePdf = none)
    (hsetA : mA.uninformativePdf = some v) (hunsetA : mA0.uninformativePdf = none)
    (hg : grid ≠ []) (hgA : gridA ≠ []) :
    Poisson.pdf mP grid none = u
  ∧ Poisson.pdf mP0 grid none = grid.map (fun _ => 1 / (grid.length : ℝ))
  ∧ (Poisson.pdf mP0 grid none).sum = 1
  ∧ (∀ y ∈ Poisson.pdf mP0 grid none, y = 1 / (grid.length : ℝ))
  ∧ AR1.pdf mA gridA none x1 = v
  ∧ AR1.pdf mA gridA (some a) none = v
  ∧ AR1.pdf mA0 gridA none x1 = gridA.map (fun _ => 1 / (gridA.length : ℝ))
  ∧ AR1.pdf mA0 gridA (some a) none = gridA.map (fun _ => 1 / (gridA.length : ℝ))
  ∧ (AR1.pdf mA0 gridA none x1).sum = 1
  ∧ (∀ y ∈ AR1.pdf mA0 gridA none x1, y = 1 / (gridA.length : ℝ)) := by
  have hA1 : AR1.pdf mA gridA none x1 = v := by
    cases x1 <;> simp [AR1.pdf, hsetA]
  have hA0 : AR1.pdf mA0 gridA none x1 = gridA.map (fun _ => 1 / (gridA.length : ℝ)) := by
    cases x1 <;> simp [AR1.pdf, hunsetA]
  refine ⟨by simp [Poisson.pdf, hset], by simp [Poisson.pdf, hunset], ?_, ?_,
    hA1, by simp [AR1.pdf, hsetA], hA0, by simp [AR1.pdf, hunsetA], ?_, ?_⟩
  · rw [show Poisson.pdf mP0 grid none = grid.map (fun _ => 1 / (grid.length : ℝ)) by
      simp [Poisson.pdf, hunset]]
    exact uniformSum grid hg
  · intro y hy
    rw [show Poisson.pdf mP0 grid none = grid.map (fun _ => 1 / (grid.length : ℝ)) by
      simp [Poisson.pdf, hunset]] at hy
    simp only [List.mem_map] at hy
    obtain ⟨z, hz, rfl⟩ := hy
    rfl
  · rw [hA0]
    exact uniformSum gridA hgA
  · intro y hy
    rw [hA0] at hy
    simp only [List.mem_map] at hy
    obtain ⟨z, hz, rfl⟩ := hy
    rfl

/-- Witness for C6 on toy three-point grids with override `[5, 6, 7]` for
Poisson and `[8, 9, 10]` for AR1. -/
theorem missing_data_policy_witness :
    ((⟨1, [1000], [(0, 1)], some [5, 6, 7]⟩ : Poisson).uninformativePdf = some [5, 6, 7]
     ∧ Poisson.make.uninformativePdf = none
     ∧ (⟨2, [200, 200], [(-1, 1), (0, 1)], some [8, 9, 10]⟩ : AR1).uninformativePdf
        = some [8, 9, 10]
     ∧ AR1.make.uninformativePdf = none
     ∧ ([1, 2, 3] : List ℝ) ≠ []
     ∧ ([(0, 1), (0, 2), (0, 3)] : List (ℝ × ℝ)) ≠ [])
  ∧ (Poisson.pdf ⟨1, [1000], [(0, 1)], some [5, 6, 7]⟩ [1, 2, 3] none = [5, 6, 7]
     ∧ Poisson.pdf Poisson.make [1, 2, 3] none
        = ([1, 2, 3] : List ℝ).map (fun _ => 1 / (([1, 2, 3] : List ℝ).length : ℝ))
     ∧ (Poisson.pdf Poisson.make [1, 2, 3] none).sum = 1
     ∧ (∀ y ∈ Poisson.pdf Poisson.make [1, 2, 3] none,
          y = 1 / (([1, 2, 3] : List ℝ).length : ℝ))
     ∧ AR1.pdf ⟨2, [200, 200], [(-1, 1), (0, 1)], some [8, 9, 10]⟩
          [(0, 1), (0, 2), (0, 3)] none (some 0) = [8, 9, 10]
     ∧ AR1.pdf ⟨2, [200, 200], [(-1, 1), (0, 1)], some [8, 9, 10]⟩
          [(0, 1), (0, 2), (0, 3)] (some 0) none = [8, 9, 10]
     ∧ AR1.pdf AR1.make [(0, 1), (0, 2), (0, 3)] none (some 0)
        = ([(0, 1), (0, 2), (0, 3)] : List (ℝ × ℝ)).map
            (fun _ => 1 / (([(0, 1), (0, 2), (0, 3)] : List (ℝ × ℝ)).length : ℝ))
     ∧ AR1.pdf AR1.make [(0, 1), (0, 2), (0, 3)] (some 0) none
        = ([(0, 1), (0, 2), (0, 3)] : List (ℝ × ℝ)).map
            (fun _ => 1 / (([(0, 1), (0, 2), (0, 3)] : List (ℝ × ℝ)).length : ℝ))
     ∧ (AR1.pdf AR1.make [(0, 1), (0, 2), (0, 3)] none (some 0)).sum = 1
     ∧ (∀ y ∈ AR1.pdf AR1.make [(0, 1), (0, 2), (0, 3)] none (some 0),
          y = 1 / (([(0, 1), (0, 2), (0, 3)] : List (ℝ × ℝ)).length : ℝ))) :=
  ⟨⟨rfl, rfl, rfl, rfl, by simp, by simp⟩,
   missing_data_policy ⟨1, [1000], [(0, 1)], some [5, 6, 7]⟩ Poisson.make
     ⟨2, [200, 200], [(-1, 1), (0, 1)], some [8, 9, 10]⟩ AR1.make
     [1, 2, 3] [(0, 1), (0, 2), (0, 3)] [5, 6, 7] [8, 9, 10] (some 0) 0
     rfl rfl rfl rfl (by simp) (by simp)⟩

/-- Claim C9 evidence: the noise-amplitude axis of `AR1`'s default boundaries
is `[0, 1]`; its lower bound equals `0` and is not strictly greater than `0`,
so the design constraint that keeps `s²` strictly positive (the density
divides by `2s²`) is not met by the default boundaries. -/
theorem ar1_default_noise_lower_bound_zero :
    (AR1.make.defaultBoundaries.getD 1 (0, 0)).1 = 0
  ∧ ¬ 0 < (AR1.make.defaultBoundaries.getD 1 (0, 0)).1 :=
  ⟨rfl, lt_irrefl 0⟩

end Bayesloop
